import Mathlib

/-!
Verification development for the risk-managed position lifecycle engine of the
Badshah-AI-trading repository: the risk manager (`risk/risk_manager.py`), the
position allocator (`allocator/position_allocator.py`) and the order executor
(`execution/order_executor.py`), embedded shallowly over exact rational
arithmetic.  Python floats are modelled as rationals; wall-clock values
(`datetime.now(timezone.utc).date()` and `time.time()`) are passed in as
explicit parameters (`nowDate : Int` for the UTC calendar date, `now : Rat`
for the epoch timestamp).  Python dicts keyed by symbol are modelled as
association lists with unique keys, preserving insertion order.
-/

namespace Badshah

/-- Position direction, the `action` string field ("LONG" / "SHORT" /
anything else, which the code treats as flat). -/
inductive Action where
  | LONG
  | SHORT
  | FLAT
deriving DecidableEq, Repr

/-- A position dictionary as handed to `RiskManager.open_position` by the
caller.  `stop_loss` and `take_profit` model `position.get("stop_loss", 0)` /
`position.get("take_profit", 0)`: a key absent from the dict is represented by
the default value `0` used by the code. -/
structure PositionRequest where
  action : Action
  size : Rat
  entry_price : Rat
  stop_loss : Rat
  take_profit : Rat
deriving DecidableEq, Repr

/-- An open position as stored in `RiskManager.open_positions`: the caller
dict augmented by `open_position` with `entry_cost`, `entry_fee` and
`open_time` (the code mutates the dict in place before inserting it). -/
structure Position where
  action : Action
  size : Rat
  entry_price : Rat
  stop_loss : Rat
  take_profit : Rat
  entry_cost : Rat
  entry_fee : Rat
  open_time : Rat
deriving DecidableEq, Repr

/-- The trade record built by `RiskManager.close_position` (the fields
`pnl`, `initial_capital` and `paper_trading` are aliases/constants in the
source: `pnl` duplicates `net_pnl`, so only `net_pnl` is kept). -/
structure Trade where
  symbol : String
  action : Action
  size : Rat
  entry_price : Rat
  exit_price : Rat
  gross_pnl : Rat
  entry_fee : Rat
  exit_fee : Rat
  fees : Rat
  net_pnl : Rat
  open_time : Rat
  close_time : Rat
  duration : Rat
  reason : String
deriving DecidableEq, Repr

/-- The mutable state of `RiskManager`.  `daily_start_date` models
`daily_start_time.date()` as an abstract UTC day number (only date
comparisons are performed on it in the source). -/
structure RiskManager where
  initial_capital : Rat
  max_drawdown_pct : Rat
  max_daily_loss_pct : Rat
  max_daily_trades : Nat
  current_capital : Rat
  peak_capital : Rat
  open_positions : List (String × Position)
  trade_history : List Trade
  daily_start_date : Int
  daily_trades : Nat
  daily_pnl : Rat
deriving DecidableEq, Repr

namespace RiskManager

/-- The fee rate `self.fee_rate = 0.001`, fixed at construction. -/
def fee_rate : Rat := 1 / 1000

/-- Freshly constructed state, from `RiskManager.__init__`. -/
def init (initial_capital : Rat) (max_drawdown_pct : Rat)
    (max_daily_loss_pct : Rat) (max_daily_trades : Nat)
    (nowDate : Int) : RiskManager :=
  { initial_capital := initial_capital
    max_drawdown_pct := max_drawdown_pct
    max_daily_loss_pct := max_daily_loss_pct
    max_daily_trades := max_daily_trades
    current_capital := initial_capital
    peak_capital := initial_capital
    open_positions := []
    trade_history := []
    daily_start_date := nowDate
    daily_trades := 0
    daily_pnl := 0 }

/-- First-match lookup in a symbol-keyed association list (Python dict
access `self.open_positions[symbol]` / membership test). -/
def lookupPos : List (String × Position) → String → Option Position
  | [], _ => none
  | (k, v) :: t, s => if k = s then some v else lookupPos t s

/-- Removal of a symbol key (`self.open_positions.pop(symbol)`). -/
def removePos : List (String × Position) → String → List (String × Position)
  | [], _ => []
  | (k, v) :: t, s => if k = s then t else (k, v) :: removePos t s

/-- Unrealized PnL contributed by one open position in
`_calculate_current_equity`: the current price is
`current_prices.get(symbol, entry_price) if current_prices else entry_price`.
A `none` price map models passing `current_prices=None` (and an empty dict,
which is falsy in Python, behaves identically: the entry price is used). -/
def unrealized_pnl (current_prices : Option (List (String × Rat)))
    (symbol : String) (p : Position) : Rat :=
  let current_price : Rat :=
    match current_prices with
    | none => p.entry_price
    | some ps => ((ps.lookup symbol).getD p.entry_price)
  match p.action with
  | .LONG => (current_price - p.entry_price) * p.size
  | .SHORT => (p.entry_price - current_price) * p.size
  | .FLAT => 0

/-- Embeds `RiskManager._calculate_current_equity`: realized capital plus the sum of
unrealized PnL over the open positions. -/
def calculate_current_equity (current_prices : Option (List (String × Rat)))
    (rm : RiskManager) : Rat :=
  rm.current_capital
    + (rm.open_positions.map (fun sp => unrealized_pnl current_prices sp.1 sp.2)).sum

/-- Embeds `RiskManager.can_open_position`.  Returns the boolean verdict together
with the updated state: the only mutations the method performs are the peak-capital
ratchet and the daily-counter reset (which the code performs last, after all
rejection checks have passed). -/
def can_open_position (nowDate : Int) (current_prices : Option (List (String × Rat)))
    (rm : RiskManager) : Bool × RiskManager :=
  let current_equity := calculate_current_equity current_prices rm
  let rm1 := if current_equity > rm.peak_capital
    then { rm with peak_capital := current_equity } else rm
  if rm1.peak_capital ≤ 0 then (false, rm1)
  else
    let drawdown_pct := ((rm1.peak_capital - current_equity) / rm1.peak_capital) * 100
    if drawdown_pct ≥ rm1.max_drawdown_pct then (false, rm1)
    else if rm1.daily_pnl < 0 ∧ 0 < rm1.initial_capital
        ∧ |rm1.daily_pnl / rm1.initial_capital| * 100 ≥ rm1.max_daily_loss_pct then
      (false, rm1)
    else if rm1.max_daily_trades ≤ rm1.daily_trades then (false, rm1)
    else if rm1.daily_start_date < nowDate then
      (true, { rm1 with daily_start_date := nowDate, daily_trades := 0, daily_pnl := 0 })
    else (true, rm1)

/-- Embeds `RiskManager.open_position`.  The gating call `self.can_open_position()`
passes no price map, so its side effects land on the state even when the
open is subsequently rejected. -/
def open_position (nowDate : Int) (now : Rat) (symbol : String)
    (position : PositionRequest) (rm : RiskManager) : Bool × RiskManager :=
  let gate := can_open_position nowDate none rm
  if gate.1 = false then (false, gate.2)
  else if (lookupPos gate.2.open_positions symbol).isSome then (false, gate.2)
  else
    let size := position.size
    let entry_price := position.entry_price
    let entry_cost := entry_price * size
    let entry_fee := entry_price * size * fee_rate
    let total_entry_cost := entry_cost + entry_fee
    if gate.2.current_capital < total_entry_cost then (false, gate.2)
    else
      let pos : Position :=
        { action := position.action
          size := size
          entry_price := entry_price
          stop_loss := position.stop_loss
          take_profit := position.take_profit
          entry_cost := entry_cost
          entry_fee := entry_fee
          open_time := now }
      (true,
        { gate.2 with
          current_capital := gate.2.current_capital - total_entry_cost
          open_positions := gate.2.open_positions ++ [(symbol, pos)]
          daily_trades := gate.2.daily_trades + 1 })

/-- Embeds `RiskManager.close_position`: pops the position, credits
`exit_proceeds - exit_fee` back to capital, ratchets the peak on realized
capital, accumulates `daily_pnl`, and appends the trade record. -/
def close_position (now : Rat) (symbol : String) (exit_price : Rat)
    (reason : String) (rm : RiskManager) : Option Trade × RiskManager :=
  match lookupPos rm.open_positions symbol with
  | none => (none, rm)
  | some position =>
    let rest := removePos rm.open_positions symbol
    let gross_pnl : Rat :=
      match position.action with
      | .LONG => (exit_price - position.entry_price) * position.size
      | .SHORT => (position.entry_price - exit_price) * position.size
      | .FLAT => 0
    let entry_fee := position.entry_fee
    let exit_fee := exit_price * position.size * fee_rate
    let total_fees := entry_fee + exit_fee
    let entry_cost := position.entry_cost
    let exit_proceeds := exit_price * position.size
    let net_pnl := exit_proceeds - entry_cost - entry_fee - exit_fee
    let new_capital := rm.current_capital + (exit_proceeds - exit_fee)
    let new_peak := if new_capital > rm.peak_capital then new_capital else rm.peak_capital
    let trade : Trade :=
      { symbol := symbol
        action := position.action
        size := position.size
        entry_price := position.entry_price
        exit_price := exit_price
        gross_pnl := gross_pnl
        entry_fee := entry_fee
        exit_fee := exit_fee
        fees := total_fees
        net_pnl := net_pnl
        open_time := position.open_time
        close_time := now
        duration := now - position.open_time
        reason := reason }
    (some trade,
      { rm with
        current_capital := new_capital
        peak_capital := new_peak
        open_positions := rest
        daily_pnl := rm.daily_pnl + net_pnl
        trade_history := rm.trade_history ++ [trade] })

/-- Trigger verdict of `check_stop_loss_take_profit`. -/
inductive Trigger where
  | stop_loss
  | take_profit
deriving DecidableEq, Repr

/-- Embeds `RiskManager.check_stop_loss_take_profit`: pure read, stop checked
before target, inclusive comparisons, mirrored for shorts. -/
def check_stop_loss_take_profit (symbol : String) (current_price : Rat)
    (rm : RiskManager) : Option Trigger :=
  match lookupPos rm.open_positions symbol with
  | none => none
  | some position =>
    match position.action with
    | .LONG =>
      if current_price ≤ position.stop_loss then some .stop_loss
      else if current_price ≥ position.take_profit then some .take_profit
      else none
    | .SHORT =>
      if current_price ≥ position.stop_loss then some .stop_loss
      else if current_price ≤ position.take_profit then some .take_profit
      else none
    | .FLAT => none

end RiskManager

/-- A signal dictionary as read by
`PositionAllocator.calculate_position_size`.  Optional fields model
`signal.get(key, default)`: `confidence` defaults to `0.5`, while
`entry_price` and `stop_loss` default to the `current_price` argument. -/
structure Signal where
  action : Action
  confidence : Option Rat
  entry_price : Option Rat
  stop_loss : Option Rat
deriving DecidableEq, Repr

/-- The state of `PositionAllocator` (the capital field is the mirror kept
by the sizer, refreshed by `update_capital`; the authoritative capital
lives in the ledger). -/
structure PositionAllocator where
  initial_capital : Rat
  max_position_size_pct : Rat
  max_portfolio_risk_pct : Rat
  current_capital : Rat
deriving DecidableEq, Repr

namespace PositionAllocator

/-- The confidence-scaled risk percentage of
`PositionAllocator.calculate_position_size`: non-positive confidence
defaults to 0.5, confidence is scaled around the 0.5 pivot, capped at
`max_position_size_pct` and floored at 0.1. -/
def base_risk_pct (a : PositionAllocator) (confidence0 : Rat) : Rat :=
  let confidence := if confidence0 ≤ 0 then (1/2 : Rat) else confidence0
  max (1/10) (min (a.max_position_size_pct * (confidence / (1/2))) a.max_position_size_pct)

/-- The cap `max_position_value = current_capital * max_position_size_pct / 100`. -/
def max_position_value (a : PositionAllocator) : Rat :=
  a.current_capital * (a.max_position_size_pct / 100)

/-- The adaptive minimum notional of
`PositionAllocator.calculate_position_size`: below capital 20 the floor is
half the maximum position value but at least 0.05; otherwise 5% of capital
capped at 0.5 and at least 0.10. -/
def min_position_value (a : PositionAllocator) : Rat :=
  if a.current_capital < 20 then max (max_position_value a * (1/2)) (1/20)
  else max (min (a.current_capital * (1/20)) (1/2)) (1/10)

/-- Embeds `PositionAllocator.calculate_position_size`, translated branch by branch
from the source (the source re-checks `risk_per_unit <= 0` a second time
after the confidence computation; that second check is unreachable and is
omitted).  Local variables of the Python body are the helper definitions
above. -/
def calculate_position_size (a : PositionAllocator) (signal : Signal)
    (current_price : Rat) : Option Rat :=
  if signal.action = .FLAT then none
  else
    let confidence0 := signal.confidence.getD (1/2)
    let entry_price := signal.entry_price.getD current_price
    let stop_loss := signal.stop_loss.getD current_price
    let risk_per_unit : Rat :=
      match signal.action with
      | .LONG => entry_price - stop_loss
      | .SHORT => stop_loss - entry_price
      | .FLAT => 0
    if risk_per_unit ≤ 0 then none
    else if a.current_capital ≤ 0 then none
    else
      let risk_amount := a.current_capital * (base_risk_pct a confidence0 / 100)
      let position_size := min (risk_amount / risk_per_unit)
        (max_position_value a / entry_price)
      let position_value := position_size * entry_price
      if position_value < min_position_value a - min_position_value a * (1/1000) then
        none
      else if position_size < 1/1000000 then none
      else if position_value ≤ 0 then none
      else some position_size

end PositionAllocator

/-- The execution record returned by `OrderExecutor.execute_order` in
paper-trading mode (`entry_price` is the price after fallback
substitution, as the code overwrites the local variable). -/
structure Execution where
  symbol : String
  action : Action
  size : Rat
  entry_price : Rat
  executed_price : Rat
  slippage : Rat
  fees : Rat
  total_cost : Rat
deriving DecidableEq, Repr

namespace OrderExecutor

/-- Embeds `OrderExecutor.execute_order` in paper-trading mode
(`paper_trading=True`, the default; the real-order branch talks to an
exchange client and is outside this model).  The random draw
`random.uniform(-slippage_pct, slippage_pct)` is made explicit as the
`slippage` argument so the model is deterministic.  A fallback of
`some f` with `f ≤ 0` is rejected exactly like the Python truthiness test
`if fallback_price and fallback_price > 0`. -/
def execute_order (slippage : Rat) (symbol : String) (action : Action)
    (size : Rat) (entry_price : Rat) (fallback_price : Option Rat) :
    Option Execution :=
  let price? : Option Rat :=
    if entry_price ≤ 0 then
      match fallback_price with
      | some f => if 0 < f then some f else none
      | none => none
    else some entry_price
  match price? with
  | none => none
  | some price =>
    let executed_price := price * (1 + slippage)
    let fee_rate : Rat := 1 / 1000
    let fees := executed_price * size * fee_rate
    some
      { symbol := symbol
        action := action
        size := size
        entry_price := price
        executed_price := executed_price
        slippage := slippage
        fees := fees
        total_cost := executed_price * size + fees }

end OrderExecutor

end Badshah

namespace Badshah
namespace RiskManager

/-- The gating check mutates only `peak_capital` and the daily-tracking
fields: realized capital, the open-position map and the trade history pass
through untouched. -/
theorem can_open_position_preserves (nowDate : Int)
    (current_prices : Option (List (String × Rat))) (rm : RiskManager) :
    (can_open_position nowDate current_prices rm).2.current_capital = rm.current_capital ∧
    (can_open_position nowDate current_prices rm).2.open_positions = rm.open_positions ∧
    (can_open_position nowDate current_prices rm).2.trade_history = rm.trade_history := by
  simp only [can_open_position]
  split_ifs <;> simp

/-- The gating check can only raise `peak_capital`. -/
theorem can_open_position_peak_le (nowDate : Int)
    (current_prices : Option (List (String × Rat))) (rm : RiskManager) :
    rm.peak_capital ≤ (can_open_position nowDate current_prices rm).2.peak_capital := by
  simp only [can_open_position]
  split_ifs with h1 <;> simp <;> exact le_of_lt h1

/-- Appending a fresh key to an association list makes it visible to
lookup. -/
theorem lookupPos_append_self (xs : List (String × Position)) (s : String)
    (p : Position) (h : lookupPos xs s = none) :
    lookupPos (xs ++ [(s, p)]) s = some p := by
  induction xs with
  | nil => simp [lookupPos]
  | cons hd tl ih =>
    obtain ⟨k, v⟩ := hd
    by_cases hk : k = s
    · simp [lookupPos, hk] at h
    · simp only [List.cons_append, lookupPos, if_neg hk] at h ⊢
      exact ih h

end RiskManager
end Badshah

namespace Badshah
namespace RiskManager

/-- C1.  Capital conservation: from a state with no open position for
`symbol`, a successful `open_position` followed by `close_position` (with no
other capital-affecting operation in between) moves `current_capital` by
exactly `net_pnl = (exit_price*size - exit_fee) - (entry_price*size +
entry_fee)` with both fees at rate 0.001, and the returned trade record
carries this same `net_pnl`. -/
theorem capital_conservation (nowDate : Int) (t1 t2 : Rat) (symbol : String)
    (p : PositionRequest) (exit_price : Rat) (reason : String)
    (rm rm1 : RiskManager)
    (hopen : open_position nowDate t1 symbol p rm = (true, rm1)) :
    ∃ trade rm2,
      close_position t2 symbol exit_price reason rm1 = (some trade, rm2) ∧
      rm2.current_capital = rm.current_capital +
        ((exit_price * p.size - exit_price * p.size * (1/1000))
          - (p.entry_price * p.size + p.entry_price * p.size * (1/1000))) ∧
      trade.net_pnl =
        (exit_price * p.size - exit_price * p.size * (1/1000))
          - (p.entry_price * p.size + p.entry_price * p.size * (1/1000)) := by
  simp only [open_position] at hopen
  split_ifs at hopen with h1 h2 h3
  · simp at hopen
  · simp at hopen
  · simp at hopen
  · rw [Prod.mk.injEq] at hopen
    obtain ⟨-, hrm1⟩ := hopen
    subst hrm1
    have hnone : lookupPos (can_open_position nowDate none rm).2.open_positions symbol
        = none := by
      simpa using h2
    have hcap := (can_open_position_preserves nowDate none rm).1
    simp only [close_position, lookupPos_append_self _ _ _ hnone]
    refine ⟨_, _, rfl, ?_, ?_⟩
    · simp only []
      rw [hcap]
      unfold fee_rate
      ring
    · simp only []
      unfold fee_rate
      ring

end RiskManager
end Badshah

namespace Badshah
namespace RiskManager

/-- Witness for C1, the end-to-end scenario of spec section 8.7: open Long
BTCUSDT size 0.1 at entry 100 from capital 100, close at 105. -/
theorem capital_conservation_witness :
    ∃ trade rm2,
      close_position 0 "BTCUSDT" 105 "take_profit"
        (open_position 0 0 "BTCUSDT"
          { action := .LONG, size := 1/10, entry_price := 100,
            stop_loss := 95, take_profit := 105 }
          (init 100 5 2 10 0)).2 = (some trade, rm2) ∧
      rm2.current_capital = (init 100 5 2 10 0).current_capital +
        ((105 * ((1:Rat)/10) - 105 * (1/10) * (1/1000))
          - (100 * (1/10) + 100 * (1/10) * (1/1000))) ∧
      trade.net_pnl =
        (105 * ((1:Rat)/10) - 105 * (1/10) * (1/1000))
          - (100 * (1/10) + 100 * (1/10) * (1/1000)) := by
  have h1 : (open_position 0 0 "BTCUSDT"
      { action := .LONG, size := 1/10, entry_price := 100,
        stop_loss := 95, take_profit := 105 }
      (init 100 5 2 10 0)).1 = true := by
    norm_num [open_position, can_open_position, calculate_current_equity, init,
      lookupPos, fee_rate]
  exact capital_conservation 0 0 0 "BTCUSDT" _ 105 "take_profit" _ _
    (Prod.ext h1 rfl)

end RiskManager
end Badshah

namespace Badshah
namespace RiskManager

/-- C2 (amended).  After a successful `open_position` for `symbol`, a second
`open_position` for the same symbol without an intervening close returns
`false` and leaves `current_capital`, `open_positions` and `trade_history`
exactly as they were; `peak_capital` and the daily counters, however, belong
to the gating check that runs before the duplicate-symbol test and may still
be ratcheted/reset by the second call. -/
theorem no_double_open (d1 d2 : Int) (t1 t2 : Rat) (symbol : String)
    (p1 p2 : PositionRequest) (rm rm1 : RiskManager)
    (hopen : open_position d1 t1 symbol p1 rm = (true, rm1)) :
    (open_position d2 t2 symbol p2 rm1).1 = false ∧
    (open_position d2 t2 symbol p2 rm1).2.current_capital = rm1.current_capital ∧
    (open_position d2 t2 symbol p2 rm1).2.open_positions = rm1.open_positions ∧
    (open_position d2 t2 symbol p2 rm1).2.trade_history = rm1.trade_history := by
  have hsome : (lookupPos rm1.open_positions symbol).isSome = true := by
    simp only [open_position] at hopen
    split_ifs at hopen with h1 h2 h3
    · simp at hopen
    · simp at hopen
    · simp at hopen
    · rw [Prod.mk.injEq] at hopen
      obtain ⟨-, hrm1⟩ := hopen
      subst hrm1
      have hnone : lookupPos (can_open_position d1 none rm).2.open_positions symbol
          = none := by
        simpa using h2
      simp [lookupPos_append_self _ _ _ hnone]
  have hpres := can_open_position_preserves d2 none rm1
  simp only [open_position]
  split_ifs with h1 h2 h3
  · exact ⟨rfl, hpres.1, hpres.2.1, hpres.2.2⟩
  · exact ⟨rfl, hpres.1, hpres.2.1, hpres.2.2⟩
  · exact absurd (by rw [hpres.2.1]; exact hsome) h2
  · exact absurd (by rw [hpres.2.1]; exact hsome) h2

/-- Witness for C2: double-open of the same symbol on a fresh ledger. -/
theorem no_double_open_witness :
    (open_position 0 0 "BTCUSDT"
      { action := .LONG, size := 1/10, entry_price := 100,
        stop_loss := 95, take_profit := 105 }
      (open_position 0 0 "BTCUSDT"
        { action := .LONG, size := 1/10, entry_price := 100,
          stop_loss := 95, take_profit := 105 }
        (init 100 5 2 10 0)).2).1 = false := by
  have h1 : (open_position 0 0 "BTCUSDT"
      { action := .LONG, size := 1/10, entry_price := 100,
        stop_loss := 95, take_profit := 105 }
      (init 100 5 2 10 0)).1 = true := by
    norm_num [open_position, can_open_position, calculate_current_equity, init,
      lookupPos, fee_rate]
  exact (no_double_open 0 0 0 0 "BTCUSDT" _ _ _ _ (Prod.ext h1 rfl)).1

/-- Counterexample for C2 as frozen: with `max_drawdown_pct = 50`, a first
open on UTC day 0 followed by a second open attempt for the same symbol on
UTC day 1 returns `false` but resets `daily_trades` from 1 to 0 (the gating
check performs its date-rollover reset before the duplicate-symbol test), so
the ledger state is not left exactly as it was after the first call. -/
theorem no_double_open_counterexample :
    (open_position 0 0 "BTC"
      { action := .LONG, size := 1/10, entry_price := 100,
        stop_loss := 95, take_profit := 105 }
      (init 100 50 2 10 0)).1 = true ∧
    (open_position 0 0 "BTC"
      { action := .LONG, size := 1/10, entry_price := 100,
        stop_loss := 95, take_profit := 105 }
      (init 100 50 2 10 0)).2.daily_trades = 1 ∧
    (open_position 1 0 "BTC"
      { action := .LONG, size := 1/10, entry_price := 100,
        stop_loss := 95, take_profit := 105 }
      (open_position 0 0 "BTC"
        { action := .LONG, size := 1/10, entry_price := 100,
          stop_loss := 95, take_profit := 105 }
        (init 100 50 2 10 0)).2).1 = false ∧
    (open_position 1 0 "BTC"
      { action := .LONG, size := 1/10, entry_price := 100,
        stop_loss := 95, take_profit := 105 }
      (open_position 0 0 "BTC"
        { action := .LONG, size := 1/10, entry_price := 100,
          stop_loss := 95, take_profit := 105 }
        (init 100 50 2 10 0)).2).2.daily_trades = 0 := by
  norm_num [open_position, can_open_position, calculate_current_equity, init,
    lookupPos, unrealized_pnl, fee_rate]

end RiskManager
end Badshah

namespace Badshah
namespace RiskManager

/-- C3.  The drawdown gate is equity-based: whenever the drawdown computed
from equity (realized capital plus unrealized PnL at the supplied prices,
zero for symbols without a price) against the ratcheted peak reaches
`max_drawdown_pct`, `can_open_position` returns `false`, regardless of the
untouched realized `current_capital`. -/
theorem drawdown_gate_equity_based (nowDate : Int)
    (current_prices : Option (List (String × Rat))) (rm : RiskManager)
    (h : ((max rm.peak_capital (calculate_current_equity current_prices rm)
            - calculate_current_equity current_prices rm)
          / max rm.peak_capital (calculate_current_equity current_prices rm)) * 100
        ≥ rm.max_drawdown_pct) :
    (can_open_position nowDate current_prices rm).1 = false := by
  rcases lt_or_ge rm.peak_capital (calculate_current_equity current_prices rm)
    with hgt | hge
  · rw [max_eq_right hgt.le] at h
    simp only [can_open_position, if_pos hgt]
    by_cases hE0 : calculate_current_equity current_prices rm ≤ 0
    · simp [hE0]
    · have h0 : rm.max_drawdown_pct ≤ 0 := by simpa using h
      simp [hE0, h0]
  · rw [max_eq_left hge] at h
    rw [can_open_position]
    simp only [if_neg (not_lt.mpr hge)]
    by_cases hP0 : rm.peak_capital ≤ 0
    · simp [hP0]
    · simp [hP0, h]

/-- Witness for C3, the scenario from the spec: initial capital 100,
`max_drawdown_pct = 5`, an open Long 0.1 BTC at entry 100 marked at price 40
(unrealized loss 6.0, i.e. 6% of the 100 peak) blocks new opens. -/
theorem drawdown_gate_equity_based_witness :
    (can_open_position 0 (some [("BTC", 40)])
      (open_position 0 0 "BTC"
        { action := .LONG, size := 1/10, entry_price := 100,
          stop_loss := 95, take_profit := 105 }
        (init 100 5 2 10 0)).2).1 = false := by
  apply drawdown_gate_equity_based
  norm_num [open_position, can_open_position, calculate_current_equity, init,
    lookupPos, unrealized_pnl, fee_rate]

end RiskManager
end Badshah

namespace Badshah
namespace RiskManager

/-- C4 (amended).  At a UTC date rollover, a `can_open_position` call that
passes the drawdown, daily-loss and daily-trade checks (which the code
evaluates on the stale, previous-day counters before reaching the reset)
resets `daily_trades` to 0, `daily_pnl` to 0 and `daily_start_date` to the
current date.  If a stale counter makes one of those checks fail, the call
returns `false` and no reset happens. -/
theorem daily_reset_on_accept (nowDate : Int)
    (current_prices : Option (List (String × Rat))) (rm : RiskManager)
    (hdate : rm.daily_start_date < nowDate)
    (hacc : (can_open_position nowDate current_prices rm).1 = true) :
    (can_open_position nowDate current_prices rm).2.daily_trades = 0 ∧
    (can_open_position nowDate current_prices rm).2.daily_pnl = 0 ∧
    (can_open_position nowDate current_prices rm).2.daily_start_date = nowDate := by
  rcases lt_or_ge rm.peak_capital (calculate_current_equity current_prices rm)
    with hgt | hge
  · simp only [can_open_position, if_pos hgt] at hacc ⊢
    split_ifs at hacc ⊢ with h2 h3 h4 h5
    all_goals simp_all
  · simp only [can_open_position, if_neg (not_lt.mpr hge)] at hacc ⊢
    split_ifs at hacc ⊢ with h2 h3 h4 h5
    all_goals simp_all

/-- Witness for C4 (amended): three previous-day trades, all checks pass on
the new day, so the counters reset. -/
theorem daily_reset_on_accept_witness :
    (can_open_position 1 none
      { initial_capital := 100, max_drawdown_pct := 5, max_daily_loss_pct := 2,
        max_daily_trades := 5, current_capital := 100, peak_capital := 100,
        open_positions := [], trade_history := [], daily_start_date := 0,
        daily_trades := 3, daily_pnl := 0 }).2.daily_trades = 0 ∧
    (can_open_position 1 none
      { initial_capital := 100, max_drawdown_pct := 5, max_daily_loss_pct := 2,
        max_daily_trades := 5, current_capital := 100, peak_capital := 100,
        open_positions := [], trade_history := [], daily_start_date := 0,
        daily_trades := 3, daily_pnl := 0 }).2.daily_pnl = 0 ∧
    (can_open_position 1 none
      { initial_capital := 100, max_drawdown_pct := 5, max_daily_loss_pct := 2,
        max_daily_trades := 5, current_capital := 100, peak_capital := 100,
        open_positions := [], trade_history := [], daily_start_date := 0,
        daily_trades := 3, daily_pnl := 0 }).2.daily_start_date = 1 :=
  daily_reset_on_accept 1 none _ (by norm_num)
    (by norm_num [can_open_position, calculate_current_equity])

/-- Counterexample for C4 as frozen: with `max_daily_trades = 5` already
reached on day 0, the first `can_open_position` call on day 1 is rejected by
the daily-trade check before the reset is reached, so the previous-day
counter both causes a rejection on the new day and is left unreset. -/
theorem daily_reset_counterexample :
    (can_open_position 1 none
      { initial_capital := 100, max_drawdown_pct := 5, max_daily_loss_pct := 2,
        max_daily_trades := 5, current_capital := 100, peak_capital := 100,
        open_positions := [], trade_history := [], daily_start_date := 0,
        daily_trades := 5, daily_pnl := 0 }).1 = false ∧
    (can_open_position 1 none
      { initial_capital := 100, max_drawdown_pct := 5, max_daily_loss_pct := 2,
        max_daily_trades := 5, current_capital := 100, peak_capital := 100,
        open_positions := [], trade_history := [], daily_start_date := 0,
        daily_trades := 5, daily_pnl := 0 }).2.daily_trades = 5 := by
  norm_num [can_open_position, calculate_current_equity]

end RiskManager
end Badshah

namespace Badshah
namespace RiskManager

/-- C5.  The code does not reject malformed input: `open_position` with a
negative size on a fresh ledger returns `true`, records the position, and
even increases capital (the negative entry cost is subtracted), instead of
failing loudly as the spec requires. -/
theorem malformed_input_silently_accepted :
    (open_position 0 0 "BTC"
      { action := .LONG, size := -1, entry_price := 10,
        stop_loss := 9, take_profit := 11 }
      (init 100 5 2 100 0)).1 = true ∧
    (open_position 0 0 "BTC"
      { action := .LONG, size := -1, entry_price := 10,
        stop_loss := 9, take_profit := 11 }
      (init 100 5 2 100 0)).2.current_capital = 11001/100 ∧
    (lookupPos (open_position 0 0 "BTC"
      { action := .LONG, size := -1, entry_price := 10,
        stop_loss := 9, take_profit := 11 }
      (init 100 5 2 100 0)).2.open_positions "BTC").isSome = true := by
  norm_num [open_position, can_open_position, calculate_current_equity, init,
    lookupPos, fee_rate]

/-- C6.  `peak_capital` is monotonically non-decreasing across every state
mutating operation: the gating check (equity ratchet), `open_position`
(whose only peak change is its inner gating call) and `close_position`
(realized-capital ratchet).  `check_stop_loss_take_profit` and the accessors
are pure reads returning no state, so they cannot move `peak_capital` at
all. -/
theorem peak_capital_monotone (nowDate : Int) (now : Rat)
    (current_prices : Option (List (String × Rat))) (symbol : String)
    (p : PositionRequest) (exit_price : Rat) (reason : String)
    (rm : RiskManager) :
    rm.peak_capital ≤ (can_open_position nowDate current_prices rm).2.peak_capital ∧
    rm.peak_capital ≤ (open_position nowDate now symbol p rm).2.peak_capital ∧
    rm.peak_capital ≤ (close_position now symbol exit_price reason rm).2.peak_capital := by
  refine ⟨can_open_position_peak_le _ _ _, ?_, ?_⟩
  · simp only [open_position]
    split_ifs with h1 h2 h3
    · exact can_open_position_peak_le _ _ _
    · exact can_open_position_peak_le _ _ _
    · exact can_open_position_peak_le _ _ _
    · simpa using can_open_position_peak_le nowDate none rm
  · rcases hl : lookupPos rm.open_positions symbol with _ | pos
    · simp [close_position, hl]
    · simp only [close_position, hl]
      split_ifs with h
      · exact le_of_lt h
      · exact le_refl _

/-- C7.  Stop-loss/take-profit check: inclusive boundaries, stop tested
before target (so stop_loss wins a degenerate overlap), mirrored
inequalities for shorts, `none` when no position is open for the symbol or
no threshold is crossed. -/
theorem check_sltp_spec (symbol : String) (current_price : Rat)
    (rm : RiskManager) (pos : Position)
    (hpos : lookupPos rm.open_positions symbol = some pos) :
    (pos.action = .LONG →
      (current_price ≤ pos.stop_loss →
        check_stop_loss_take_profit symbol current_price rm = some .stop_loss) ∧
      (¬ current_price ≤ pos.stop_loss → current_price ≥ pos.take_profit →
        check_stop_loss_take_profit symbol current_price rm = some .take_profit) ∧
      (¬ current_price ≤ pos.stop_loss → ¬ current_price ≥ pos.take_profit →
        check_stop_loss_take_profit symbol current_price rm = none)) ∧
    (pos.action = .SHORT →
      (current_price ≥ pos.stop_loss →
        check_stop_loss_take_profit symbol current_price rm = some .stop_loss) ∧
      (¬ current_price ≥ pos.stop_loss → current_price ≤ pos.take_profit →
        check_stop_loss_take_profit symbol current_price rm = some .take_profit) ∧
      (¬ current_price ≥ pos.stop_loss → ¬ current_price ≤ pos.take_profit →
        check_stop_loss_take_profit symbol current_price rm = none)) ∧
    (∀ rm2 : RiskManager, lookupPos rm2.open_positions symbol = none →
      check_stop_loss_take_profit symbol current_price rm2 = none) := by
  refine ⟨fun ha => ⟨fun h1 => ?_, fun h1 h2 => ?_, fun h1 h2 => ?_⟩,
    fun ha => ⟨fun h1 => ?_, fun h1 h2 => ?_, fun h1 h2 => ?_⟩,
    fun rm2 h2 => ?_⟩
  · simp [check_stop_loss_take_profit, hpos, ha, h1]
  · simp [check_stop_loss_take_profit, hpos, ha, h1, h2]
  · simp only [check_stop_loss_take_profit, hpos, ha]
    rw [if_neg h1, if_neg h2]
  · simp [check_stop_loss_take_profit, hpos, ha, h1]
  · simp [check_stop_loss_take_profit, hpos, ha, h1, h2]
  · simp only [check_stop_loss_take_profit, hpos, ha]
    rw [if_neg h1, if_neg h2]
  · simp [check_stop_loss_take_profit, h2]

/-- Witness for C7: a Long with stop 95 / target 105 triggers `stop_loss`
exactly at 95 and `take_profit` exactly at 105. -/
theorem check_sltp_spec_witness :
    check_stop_loss_take_profit "BTC" 95
      { initial_capital := 100, max_drawdown_pct := 5, max_daily_loss_pct := 2,
        max_daily_trades := 100, current_capital := 8999/100, peak_capital := 100,
        open_positions := [("BTC",
          { action := .LONG, size := 1/10, entry_price := 100, stop_loss := 95,
            take_profit := 105, entry_cost := 10, entry_fee := 1/100,
            open_time := 0 })],
        trade_history := [], daily_start_date := 0, daily_trades := 1,
        daily_pnl := 0 } = some .stop_loss ∧
    check_stop_loss_take_profit "BTC" 105
      { initial_capital := 100, max_drawdown_pct := 5, max_daily_loss_pct := 2,
        max_daily_trades := 100, current_capital := 8999/100, peak_capital := 100,
        open_positions := [("BTC",
          { action := .LONG, size := 1/10, entry_price := 100, stop_loss := 95,
            take_profit := 105, entry_cost := 10, entry_fee := 1/100,
            open_time := 0 })],
        trade_history := [], daily_start_date := 0, daily_trades := 1,
        daily_pnl := 0 } = some .take_profit := by
  constructor
  · exact ((check_sltp_spec "BTC" 95 _
      { action := .LONG, size := 1/10, entry_price := 100, stop_loss := 95,
        take_profit := 105, entry_cost := 10, entry_fee := 1/100, open_time := 0 }
      (by simp [lookupPos])).1 rfl).1 (by norm_num)
  · exact ((check_sltp_spec "BTC" 105 _
      { action := .LONG, size := 1/10, entry_price := 100, stop_loss := 95,
        take_profit := 105, entry_cost := 10, entry_fee := 1/100, open_time := 0 }
      (by simp [lookupPos])).1 rfl).2.1 (by norm_num) (by norm_num)

end RiskManager
end Badshah

namespace Badshah
namespace PositionAllocator

/-- C8.  Minimum notional floor: the floor is
`max(0.5 * max_position_value, 0.05)` when the capital mirror is below 20
and `max(min(0.05 * capital, 0.5), 0.10)` otherwise; any size the sizer
returns has notional at least the floor minus the 0.1% relative tolerance
(equivalently, a computed notional below that threshold yields `None`); and
in particular, with `initial_capital = 10` and `max_position_size_pct = 1`,
a signal whose computed notional (1/30) falls below the floor (0.05) is
rejected with `None`. -/
theorem minimum_notional_floor (a : PositionAllocator) (signal : Signal)
    (current_price : Rat) (sz : Rat)
    (hsz : calculate_position_size a signal current_price = some sz) :
    (sz * (signal.entry_price.getD current_price) ≥
      (if a.current_capital < 20 then
        max (a.current_capital * (a.max_position_size_pct / 100) * (1/2)) (1/20)
      else max (min (a.current_capital * (1/20)) (1/2)) (1/10))
      - (if a.current_capital < 20 then
          max (a.current_capital * (a.max_position_size_pct / 100) * (1/2)) (1/20)
        else max (min (a.current_capital * (1/20)) (1/2)) (1/10)) * (1/1000)) ∧
    calculate_position_size
      { initial_capital := 10, max_position_size_pct := 1,
        max_portfolio_risk_pct := 20, current_capital := 10 }
      { action := .SHORT, confidence := some (1/2), entry_price := some 1,
        stop_loss := some 4 } 1 = none := by
  constructor
  · have hfloor : (if a.current_capital < 20 then
          max (a.current_capital * (a.max_position_size_pct / 100) * (1/2)) (1/20)
        else max (min (a.current_capital * (1/20)) (1/2)) (1/10))
        = min_position_value a := by
      rw [min_position_value, max_position_value]
    rw [hfloor]
    simp only [calculate_position_size] at hsz
    split_ifs at hsz with h1 h2 h3 h4 h5 h6
    rw [Option.some.injEq] at hsz
    subst hsz
    exact not_lt.mp h4
  · norm_num [calculate_position_size, base_risk_pct, max_position_value,
      min_position_value]

end PositionAllocator
end Badshah

namespace Badshah
namespace PositionAllocator

/-- Witness for C8: capital mirror 10, `max_position_size_pct = 1`; a Long
at entry 100 / stop 95 with confidence 0.5 sizes to 0.001 units (notional
0.1, above the 0.05 floor), discharging the hypothesis concretely. -/
theorem minimum_notional_floor_witness :
    calculate_position_size
      (PositionAllocator.mk 10 1 20 10)
      (Signal.mk .LONG (some (1/2)) (some 100) (some 95)) 100
      = some (1/1000) ∧
    (((1:Rat)/1000) *
        ((Signal.mk .LONG (some (1/2)) (some 100) (some 95)).entry_price.getD 100) ≥
      (if (PositionAllocator.mk 10 1 20 10).current_capital < 20 then
        max ((PositionAllocator.mk 10 1 20 10).current_capital *
          ((PositionAllocator.mk 10 1 20 10).max_position_size_pct / 100) * (1/2)) (1/20)
      else max (min ((PositionAllocator.mk 10 1 20 10).current_capital * (1/20)) (1/2)) (1/10))
      - (if (PositionAllocator.mk 10 1 20 10).current_capital < 20 then
          max ((PositionAllocator.mk 10 1 20 10).current_capital *
            ((PositionAllocator.mk 10 1 20 10).max_position_size_pct / 100) * (1/2)) (1/20)
        else max (min ((PositionAllocator.mk 10 1 20 10).current_capital * (1/20)) (1/2)) (1/10))
        * (1/1000)) ∧
    calculate_position_size
      (PositionAllocator.mk 10 1 20 10)
      (Signal.mk .SHORT (some (1/2)) (some 1) (some 4)) 1 = none := by
  have hs : calculate_position_size
      (PositionAllocator.mk 10 1 20 10)
      (Signal.mk .LONG (some (1/2)) (some 100) (some 95)) 100
      = some (1/1000) := by
    norm_num [calculate_position_size, base_risk_pct, max_position_value,
      min_position_value, min_def, max_def]
    exact fun hcon => Action.noConfusion hcon
  have h := minimum_notional_floor (PositionAllocator.mk 10 1 20 10)
    (Signal.mk .LONG (some (1/2)) (some 100) (some 95)) 100 (1/1000) hs
  refine ⟨hs, h.1, ?_⟩
  have h2 := h.2
  exact h2

end PositionAllocator

namespace OrderExecutor

/-- C9.  The paper-trading fill model: a non-positive desired price is
replaced by a positive fallback (and the call fails with `none` when no
positive fallback exists); any drawn slippage in
`[-slippage_pct, slippage_pct]` is applied multiplicatively, the fee is
0.1% of the executed notional, and the total cost is the executed notional
plus the fee. -/
theorem execute_order_fill_model (slippage_pct slippage : Rat)
    (symbol : String) (action : Action) (size entry_price : Rat)
    (fallback_price : Option Rat)
    ( _hs1 : -slippage_pct ≤ slippage) ( _hs2 : slippage ≤ slippage_pct) :
    (entry_price ≤ 0 → fallback_price = none →
      execute_order slippage symbol action size entry_price fallback_price
        = none) ∧
    (entry_price ≤ 0 → ∀ f, fallback_price = some f → f ≤ 0 →
      execute_order slippage symbol action size entry_price fallback_price
        = none) ∧
    (entry_price ≤ 0 → ∀ f, fallback_price = some f → 0 < f →
      execute_order slippage symbol action size entry_price fallback_price
        = some
          { symbol := symbol, action := action, size := size,
            entry_price := f, executed_price := f * (1 + slippage),
            slippage := slippage, fees := f * (1 + slippage) * size * (1/1000),
            total_cost := f * (1 + slippage) * size
              + f * (1 + slippage) * size * (1/1000) }) ∧
    (0 < entry_price →
      execute_order slippage symbol action size entry_price fallback_price
        = some
          { symbol := symbol, action := action, size := size,
            entry_price := entry_price,
            executed_price := entry_price * (1 + slippage),
            slippage := slippage,
            fees := entry_price * (1 + slippage) * size * (1/1000),
            total_cost := entry_price * (1 + slippage) * size
              + entry_price * (1 + slippage) * size * (1/1000) }) := by
  refine ⟨fun h1 h2 => ?_, fun h1 f h2 h3 => ?_, fun h1 f h2 h3 => ?_,
    fun h1 => ?_⟩
  · simp [execute_order, h1, h2]
  · simp [execute_order, h1, h2, h3.not_lt]
  · simp [execute_order, h1, h2, h3]
  · simp [execute_order, h1.not_le]

/-- Witness for C9: slippage 1/2000 within the default band 1/1000, entry
100, size 2. -/
theorem execute_order_fill_model_witness :
    execute_order (1/2000) "BTCUSDT" .LONG 2 100 none = some
      { symbol := "BTCUSDT", action := .LONG, size := 2,
        entry_price := 100, executed_price := 100 * (1 + 1/2000),
        slippage := 1/2000, fees := 100 * (1 + 1/2000) * 2 * (1/1000),
        total_cost := 100 * (1 + 1/2000) * 2
          + 100 * (1 + 1/2000) * 2 * (1/1000) } :=
  (execute_order_fill_model (1/1000) (1/2000) "BTCUSDT" .LONG 2 100 none
    (by norm_num) (by norm_num)).2.2.2 (by norm_num)

end OrderExecutor

namespace RiskManager

/-- C10 (implicit).  `open_position` gates through `can_open_position` with
no price map, and with no price map the unrealized PnL of every open position is
taken as zero (the entry price stands in for the current price), so the
equity used by the internal drawdown gate is exactly the realized
`current_capital`; consequently a successful `open_position` implies the
price-less gate passed — only a caller-side `can_open_position` call with
real prices can reflect live unrealized losses. -/
theorem open_gate_never_sees_unrealized (nowDate : Int) (now : Rat)
    (symbol : String) (p : PositionRequest) (rm : RiskManager) :
    calculate_current_equity none rm = rm.current_capital ∧
    ((open_position nowDate now symbol p rm).1 = true →
      (can_open_position nowDate none rm).1 = true) := by
  constructor
  · have hz : (rm.open_positions.map
        (fun sp => unrealized_pnl none sp.1 sp.2)).sum = 0 := by
      apply List.sum_eq_zero
      intro x hx
      obtain ⟨sp, hsp, rfl⟩ := List.mem_map.mp hx
      cases h : sp.2.action <;> simp [unrealized_pnl, h]
    rw [calculate_current_equity, hz, add_zero]
  · intro h
    simp only [open_position] at h
    split_ifs at h with h1 h2 h3
    all_goals try simp at h
    all_goals cases hb : (can_open_position nowDate none rm).1
    all_goals try exact absurd hb h1
    all_goals rfl

/-- Witness for C10: on a fresh ledger the price-less equity equals capital
and a successful open implies the price-less gate passed. -/
theorem open_gate_never_sees_unrealized_witness :
    calculate_current_equity none (init 100 5 2 10 0)
      = (init 100 5 2 10 0).current_capital ∧
    (can_open_position 0 none (init 100 5 2 10 0)).1 = true := by
  have h := open_gate_never_sees_unrealized 0 0 "BTCUSDT"
    { action := .LONG, size := 1/10, entry_price := 100,
      stop_loss := 95, take_profit := 105 }
    (init 100 5 2 10 0)
  exact ⟨h.1, h.2 (by norm_num [open_position, can_open_position,
    calculate_current_equity, init, lookupPos, fee_rate])⟩

end RiskManager
end Badshah
